import Mathlib

/-!
Verification development for the `lma.js` repository (`src/index.ts`):
a Levenberg-Marquardt curve-fitting routine consisting of

* `error`          — sum of absolute residuals (the spec's ErrorEvaluator);
* `gradientFunction` — finite-difference sensitivity matrix (GradientApproximator);
* `matrixFunction` — residual row vector;
* `step`           — one damped Gauss-Newton step (StepComputer);
* `lma`            — the two-phase optimizer (Optimizer / `fit`).

JavaScript numbers are modelled by `LMA.JNum`: either an exact rational or
the invalid value `nan`.  `nan` propagates through all arithmetic and makes
every comparison false, exactly as IEEE NaN behaves in the JS source.
Out-of-bounds array reads in the source produce `undefined`, which turns
into NaN the moment it meets arithmetic or a comparison, so such reads are
modelled as `nan` as well.

The dense linear-algebra dependency (`mathjs`) is a black-box external
collaborator per the spec.  Its operations are realised here over
`List (List JNum)`: construction, addition, subtraction, transpose,
scalar and matrix product, identity, and an inverse (`jinv`, via the
adjugate formula).  Division by zero yields the invalid value `nan`,
modelling the error-like signal that the spec says must propagate as
not-a-number/invalid values.
-/

namespace LMA

/-- A JavaScript number: an exact rational, or the invalid value NaN. -/
inductive JNum where
  | num (q : ℚ)
  | nan
deriving DecidableEq, Repr

/-- JS addition; NaN propagates. -/
def jadd : JNum → JNum → JNum
  | .num p, .num q => .num (p + q)
  | _, _ => .nan

/-- JS subtraction; NaN propagates. -/
def jsub : JNum → JNum → JNum
  | .num p, .num q => .num (p - q)
  | _, _ => .nan

/-- JS multiplication; NaN propagates. -/
def jmul : JNum → JNum → JNum
  | .num p, .num q => .num (p * q)
  | _, _ => .nan

/-- Division; NaN propagates, and division by zero yields the invalid
value (`nan`), modelling the invalid-result signal of the black-box
linear algebra described in the spec. -/
def jdiv : JNum → JNum → JNum
  | .num p, .num q => if q = 0 then .nan else .num (p / q)
  | _, _ => .nan

/-- `Math.abs`; NaN propagates. -/
def jabs : JNum → JNum
  | .num p => .num |p|
  | .nan => .nan

/-- JS `<`: false whenever either side is NaN. -/
def jlt : JNum → JNum → Bool
  | .num p, .num q => decide (p < q)
  | _, _ => false

/-- JS `>`: false whenever either side is NaN. -/
def jgt : JNum → JNum → Bool
  | .num p, .num q => decide (q < p)
  | _, _ => false

/-- JS `<=`: false whenever either side is NaN. -/
def jle : JNum → JNum → Bool
  | .num p, .num q => decide (p ≤ q)
  | _, _ => false

/-- JS `isNaN`. -/
def isNaN : JNum → Bool
  | .nan => true
  | .num _ => false

/-- A dense matrix of JS numbers, as mathjs stores it: rows of entries. -/
abbrev Mat := List (List JNum)

/-- Dot product of two rows (entry of a mathjs matrix product). -/
def dot (xs ys : List JNum) : JNum :=
  (List.zipWith jmul xs ys).foldr jadd (JNum.num 0)

/-- mathjs `transpose`: column `j` of the input becomes row `j`. -/
def transposeM (M : Mat) : Mat :=
  (List.range (M.headD []).length).map (fun j => M.map (fun row => row.getD j JNum.nan))

/-- mathjs matrix `multiply`. -/
def mmul (A B : Mat) : Mat :=
  A.map (fun row => (transposeM B).map (fun col => dot row col))

/-- mathjs matrix `add`. -/
def madd (A B : Mat) : Mat :=
  List.zipWith (List.zipWith jadd) A B

/-- mathjs matrix `subtract`. -/
def msubM (A B : Mat) : Mat :=
  List.zipWith (List.zipWith jsub) A B

/-- mathjs `multiply(M, c)` with a scalar second argument (elementwise). -/
def smulE (M : Mat) (c : JNum) : Mat :=
  M.map (fun row => row.map (fun x => jmul x c))

/-- mathjs `multiply(c, M)` with a scalar first argument (elementwise). -/
def smulF (c : JNum) (M : Mat) : Mat :=
  M.map (fun row => row.map (fun x => jmul c x))

/-- mathjs `eye n`: the n-by-n identity matrix. -/
def eyeM (n : Nat) : Mat :=
  (List.range n).map (fun i => (List.range n).map (fun j =>
    if i = j then JNum.num 1 else JNum.num 0))

/-- Cofactor sign `(-1)^j`. -/
def signQ (j : Nat) : JNum :=
  if j % 2 = 0 then JNum.num 1 else JNum.num (-1)

/-- The matrix with row `r` and column `c` removed. -/
def minorRC (M : Mat) (r c : Nat) : Mat :=
  (M.eraseIdx r).map (fun row => row.eraseIdx c)

/-- Determinant by cofactor expansion along the first row, with an
explicit size argument driving the recursion. -/
def detAux : Nat → Mat → JNum
  | 0, _ => JNum.num 1
  | n + 1, M =>
      ((List.range (n + 1)).map (fun j =>
        jmul (jmul (signQ j) ((M.headD []).getD j JNum.nan)) (detAux n (minorRC M 0 j)))).foldr
        jadd (JNum.num 0)

/-- Determinant of a square matrix. -/
def detM (M : Mat) : JNum := detAux M.length M

/-- mathjs `inv`, realised through the adjugate formula: entry `(i, j)`
of the inverse is the `(j, i)` cofactor divided by the determinant.  On a
singular matrix the division by zero produces invalid (`nan`) entries that
propagate, as the spec requires of the black-box inverse. -/
def jinv (M : Mat) : Mat :=
  (List.range M.length).map (fun i => (List.range M.length).map (fun j =>
    jdiv (jmul (signQ (i + j)) (detAux (M.length - 1) (minorRC M j i))) (detM M)))

/-- The input dataset: two equally long coordinate arrays. -/
structure DataSet where
  x : List JNum
  y : List JNum
deriving DecidableEq, Repr

/-- The caller-supplied parameterized model: parameters in, evaluator out. -/
abbrev ModelFn := List JNum → JNum → JNum

/-- `error` from `src/index.ts` (the spec's ErrorEvaluator): starts from 0
and accumulates `Math.abs(data.y[i] - func(data.x[i]))` over
`i < data.x.length`. -/
def error (data : DataSet) (params : List JNum) (parameterizedFunction : ModelFn) : JNum :=
  (List.range data.x.length).foldl
    (fun acc i =>
      jadd acc (jabs (jsub (data.y.getD i JNum.nan)
        (parameterizedFunction params (data.x.getD i JNum.nan)))))
    (JNum.num 0)

/-- `gradientFunction` from `src/index.ts` (the spec's GradientApproximator):
for each parameter index, copy the parameter vector (`params.concat()`),
increment slot `param` by `gradientDifference` (`List.set` is the pure
rendering of the in-place `+=` on the copy), build the evaluator from the
perturbed copy once, and fill the row with
`evaluatedData[point] - funcParam(data.x[point])`. -/
def gradientFunction (data : DataSet) (evaluatedData params : List JNum)
    (gradientDifference : JNum) (paramFunction : ModelFn) : Mat :=
  (List.range params.length).map (fun param =>
    let auxParams := params.set param (jadd (params.getD param JNum.nan) gradientDifference)
    (List.range data.x.length).map (fun point =>
      jsub (evaluatedData.getD point JNum.nan)
        (paramFunction auxParams (data.x.getD point JNum.nan))))

/-- `matrixFunction` from `src/index.ts`: the 1-by-m residual row matrix
`[data.y[point] - evaluatedData[point]]`. -/
def matrixFunction (data : DataSet) (evaluatedData : List JNum) : Mat :=
  [(List.range data.x.length).map (fun point =>
    jsub (data.y.getD point JNum.nan) (evaluatedData.getD point JNum.nan))]

/-- The model evaluated at the current parameters over all samples
(the `evaluatedData` fill loop at the top of `step`). -/
def evalData (data : DataSet) (params : List JNum) (parameterizedFunction : ModelFn) :
    List JNum :=
  (List.range data.x.length).map (fun i =>
    parameterizedFunction params (data.x.getD i JNum.nan))

/-- The `identity` local of `step`:
`multiply(eye(params.length), damping * gradientDifference * gradientDifference)`. -/
def identityM (n : Nat) (damping gradientDifference : JNum) : Mat :=
  smulE (eyeM n) (jmul (jmul damping gradientDifference) gradientDifference)

/-- The `inverseMatrix` local of `step`:
`inv(add(identity, multiply(gradientFunc, transpose(gradientFunc))))`. -/
def inverseMatrix (data : DataSet) (params : List JNum)
    (damping gradientDifference : JNum) (parameterizedFunction : ModelFn) : Mat :=
  jinv (madd (identityM params.length damping gradientDifference)
    (mmul (gradientFunction data (evalData data params parameterizedFunction) params
        gradientDifference parameterizedFunction)
      (transposeM (gradientFunction data (evalData data params parameterizedFunction) params
        gradientDifference parameterizedFunction))))

/-- The chained product of `step`:
`chain(inverseMatrix).multiply(gradientFunc).multiply(matrixFunc).multiply(gradientDifference)`
(the `matrixFunc` local is `transpose(matrixFunction(data, evaluatedData))`). -/
def chainMat (data : DataSet) (params : List JNum)
    (damping gradientDifference : JNum) (parameterizedFunction : ModelFn) : Mat :=
  smulE
    (mmul
      (mmul (inverseMatrix data params damping gradientDifference parameterizedFunction)
        (gradientFunction data (evalData data params parameterizedFunction) params
          gradientDifference parameterizedFunction))
      (transposeM (matrixFunction data (evalData data params parameterizedFunction))))
    gradientDifference

/-- `step` from `src/index.ts` (the spec's StepComputer):
`subtract(matrix([params]), transpose(chain...))` followed by
`.toArray()[0]` (row 0 of the 1-by-n difference). -/
def step (data : DataSet) (params : List JNum)
    (damping gradientDifference : JNum) (parameterizedFunction : ModelFn) : List JNum :=
  (msubM [params]
    (transposeM (chainMat data params damping gradientDifference parameterizedFunction))).getD
    0 []

/-- State of the phase-1 (damping bracketing) `do`-`while` loop of `lma`:
the mutable locals `par`, `damp`, `count`, and the candidate errors
`errD`, `errV` written by the loop body and read by the loop condition.
Before the first body execution `errD`/`errV` are `undefined` in the
source (`let errD;`), modelled as `nan`; the condition is never evaluated
before the body assigns them. -/
structure P1St where
  par : List JNum
  damp : JNum
  count : Nat
  errD : JNum
  errV : JNum
deriving DecidableEq, Repr

/-- One execution of the phase-1 loop body (lines 47-62 of the source).
The returned flag is `true` exactly when the `break` statement ran (in
which case `count++` was skipped). -/
def p1Body (data : DataSet) (f : ModelFn) (gradientDifference v err : JNum)
    (st : P1St) : P1St × Bool :=
  let stepD := step data st.par st.damp gradientDifference f
  let errD := error data stepD f
  let stepV := step data st.par (jdiv st.damp v) gradientDifference f
  let errV := error data stepV f
  if jgt err errD || jgt err errV then
    if jgt errD errV then
      ({ par := stepV, damp := jdiv st.damp v, count := st.count + 1,
         errD := errD, errV := errV }, false)
    else
      ({ st with errD := errD, errV := errV }, true)
  else
    ({ st with
        damp := jmul st.damp v, count := st.count + 1,
        errD := errD, errV := errV }, false)

/-- The phase-1 `while` condition (line 64 of the source):
`err < errD || err < errV || count < maxIterations`. -/
def p1Cond (err : JNum) (maxIterations : Nat) (st : P1St) : Bool :=
  jlt err st.errD || jlt err st.errV || decide (st.count < maxIterations)

/-- The phase-1 `do`-`while` loop.  The source loop need not terminate
(the condition can stay true forever), so the embedding carries fuel and
returns `none` when the fuel runs out before the loop exits. -/
def phase1Loop (data : DataSet) (f : ModelFn) (gradientDifference v err : JNum)
    (maxIterations : Nat) : Nat → P1St → Option P1St
  | 0, _ => none
  | fuel + 1, st =>
      let out := p1Body data f gradientDifference v err st
      if out.2 then some out.1
      else if p1Cond err maxIterations out.1 then
        phase1Loop data f gradientDifference v err maxIterations fuel out.1
      else some out.1

/-- State of the phase-2 (refinement) `for` loop of `lma`: the mutable
locals `parameters`, `err`, `converged`, `lastParams`, and the loop
counter `i`.  Two ghost fields record the call trace for specification
purposes only: `total` counts every execution of the loop body (i.e.
every `step`+`error` call pair), and `firstCall` records the parameter
vector passed to the first `step` call of the phase, if any. -/
structure P2St where
  parameters : List JNum
  err : JNum
  converged : Bool
  lastParams : List JNum
  i : Nat
  total : Nat
  firstCall : Option (List JNum)
deriving DecidableEq, Repr

/-- The phase-2 `for` loop (lines 69-81 of the source):
while `i < maxIterations && !converged`, recompute `parameters` by
`step`, recompute `err`, `break` on NaN (skipping `i++`), otherwise
update `converged` and `lastParams` and increment `i`.  The fuel equals
`maxIterations` at the top-level call, which suffices since `i` grows by
one per body execution. -/
def phase2Go (data : DataSet) (f : ModelFn) (gradientDifference damp errorTolerance : JNum)
    (maxIterations : Nat) : Nat → P2St → P2St
  | 0, st => st
  | fuel + 1, st =>
      if decide (st.i < maxIterations) && !st.converged then
        let stepped := step data st.parameters damp gradientDifference f
        let e := error data stepped f
        let ghostFirst := match st.firstCall with
          | some v => some v
          | none => some st.parameters
        if isNaN e then
          { st with
              parameters := stepped, err := e, total := st.total + 1,
              firstCall := ghostFirst }
        else
          phase2Go data f gradientDifference damp errorTolerance maxIterations fuel
            { parameters := stepped, err := e, converged := jle e errorTolerance,
              lastParams := stepped, i := st.i + 1, total := st.total + 1,
              firstCall := ghostFirst }
      else st

/-- The resolved configuration of a `fit`/`lma` call, i.e. the values the
destructuring at lines 29-36 binds.  `maxIterations` is used only as a
loop bound and is modelled as a natural number. -/
structure Config where
  damping : JNum
  gradientDifference : JNum
  initialValues : List JNum
  maxIterations : Nat
  errorTolerance : JNum
  v : JNum
deriving DecidableEq, Repr

/-- The `Result` object returned by `lma`. -/
structure Result where
  iterations : Nat
  parameterError : JNum
  parameterValues : List JNum
deriving DecidableEq, Repr

/-- A `fit` run together with the exit states of both phases, kept for
specification purposes: `p1` is the phase-1 loop state at exit, `p2` the
phase-2 loop state at exit. -/
structure RunTrace where
  result : Result
  p1 : P1St
  p2 : P2St
deriving DecidableEq, Repr

/-- The phase-1 loop entry state: `par = parameters = initialValues`,
`damp = damping`, `count = 0`, `errD`/`errV` still `undefined`. -/
def p1Init (cfg : Config) : P1St :=
  { par := cfg.initialValues, damp := cfg.damping, count := 0,
    errD := JNum.nan, errV := JNum.nan }

/-- The phase-2 loop entry state, exactly as the source sets it up at
lines 66-68: `parameters` is still the `initialValues` bound at line 38
(phase 1 wrote only to `par`), `err` is still the baseline error of line
40 (phase 1 wrote only to `errD`/`errV`), `converged = err <= errorTolerance`,
`lastParams = initialValues`, `i = 0`.  Ghost counters start at zero. -/
def p2Init (data : DataSet) (f : ModelFn) (cfg : Config) : P2St :=
  { parameters := cfg.initialValues,
    err := error data cfg.initialValues f,
    converged := jle (error data cfg.initialValues f) cfg.errorTolerance,
    lastParams := cfg.initialValues,
    i := 0, total := 0, firstCall := none }

/-- `lma` from `src/index.ts`, instrumented to also return the two loop
exit states.  `none` only when the phase-1 fuel is exhausted. -/
def lmaRun (fuel : Nat) (data : DataSet) (parameterizedFunction : ModelFn)
    (cfg : Config) : Option RunTrace :=
  match phase1Loop data parameterizedFunction cfg.gradientDifference cfg.v
      (error data cfg.initialValues parameterizedFunction)
      cfg.maxIterations fuel (p1Init cfg) with
  | none => none
  | some st1 =>
      let st2 := phase2Go data parameterizedFunction cfg.gradientDifference st1.damp
        cfg.errorTolerance cfg.maxIterations cfg.maxIterations
        (p2Init data parameterizedFunction cfg)
      some
        { result :=
            { iterations := st2.i,
              parameterError :=
                if isNaN st2.err then error data st2.lastParams parameterizedFunction
                else st2.err,
              parameterValues :=
                if isNaN st2.err then st2.lastParams else st2.parameters },
          p1 := st1, p2 := st2 }

/-- The public `lma` entry point (the spec's `fit`): the `Result` object
of lines 83-87. -/
def lma (fuel : Nat) (data : DataSet) (parameterizedFunction : ModelFn)
    (cfg : Config) : Option Result :=
  (lmaRun fuel data parameterizedFunction cfg).map RunTrace.result

/-- The options object as the caller may pass it: every field can be
present or absent (`none` models an absent field, i.e. `undefined`). -/
structure RawOptions where
  damping : Option JNum
  gradientDifference : Option JNum
  initialValues : Option (List JNum)
  maxIterations : Option Nat
  errorTolerance : Option JNum
  v : Option JNum
deriving DecidableEq, Repr

/-- The default-parameter object of lines 20-27.  `damping: 0`,
`errorTolerance: 10e-3` (= 1/100), `gradientDifference: 10e-2` (= 1/10),
`maxIterations: 100`, `v: 1.5`, and
`initialValues: new Array(parameterizedFunction.length).map(() => 1)` —
an array of `fn.length` holes (`Array(n)` creates holes and `.map` skips
them), every read of which yields `undefined`; it is modelled as a list
of `arity` invalid entries. -/
def defaultOptions (arity : Nat) : RawOptions :=
  { damping := some (JNum.num 0),
    errorTolerance := some (JNum.num (1 / 100)),
    gradientDifference := some (JNum.num (1 / 10)),
    initialValues := some (List.replicate arity JNum.nan),
    maxIterations := some 100,
    v := some (JNum.num (3 / 2)) }

/-- JavaScript default-parameter semantics for `options`: the default
object is used only when the caller omits the argument entirely; a
supplied object is used as-is, with its absent fields remaining
`undefined` (no per-field merging happens anywhere in the source). -/
def resolveOptions (o : Option RawOptions) (arity : Nat) : RawOptions :=
  match o with
  | none => defaultOptions arity
  | some o => o

/-- An options object supplied by the caller with every field omitted. -/
def emptyOptions : RawOptions :=
  ⟨none, none, none, none, none, none⟩

/-- Sum of a list of JS numbers (the spec's `sum over i`). -/
def jsum (l : List JNum) : JNum := l.foldr jadd (JNum.num 0)

/-- Modelled from the spec, §4.1: ErrorEvaluator as the spec words it,
`sum over i of |y_i - evaluator(x_i)|`. -/
def errorSpec (data : DataSet) (params : List JNum) (f : ModelFn) : JNum :=
  jsum ((List.range data.x.length).map (fun i =>
    jabs (jsub (data.y.getD i JNum.nan) (f params (data.x.getD i JNum.nan)))))

/-- Modelled from the spec, §4.3 item 4: the damped normal matrix
`A = I·(damping·gradientDifference²) + J·Jᵗ`. -/
def dampedNormal (data : DataSet) (params : List JNum)
    (damping gradientDifference : JNum) (f : ModelFn) : Mat :=
  madd (smulE (eyeM params.length) (jmul damping (jmul gradientDifference gradientDifference)))
    (mmul (gradientFunction data (evalData data params f) params gradientDifference f)
      (transposeM (gradientFunction data (evalData data params f) params gradientDifference f)))

/-- Modelled from the spec, §4.3: StepComputer as the spec words it —
`r = y - evaluatedData` (row of length m),
`δ = gradientDifference · A⁻¹ · J · rᵗ`, `newParams = params - δ`. -/
def stepSpec (data : DataSet) (params : List JNum)
    (damping gradientDifference : JNum) (f : ModelFn) : List JNum :=
  let J := gradientFunction data (evalData data params f) params gradientDifference f
  let r := (List.range data.x.length).map (fun i =>
    jsub (data.y.getD i JNum.nan) ((evalData data params f).getD i JNum.nan))
  let delta := smulF gradientDifference
    (mmul (mmul (jinv (dampedNormal data params damping gradientDifference f)) J)
      (transposeM [r]))
  List.zipWith jsub params (delta.map (fun row => row.getD 0 JNum.nan))

/-- A heap of JS arrays, for stating the no-mutation (frame) properties:
a reference is an index into the store. -/
abbrev Store := List (List JNum)

/-- Dereference an array. -/
def readArr (σ : Store) (r : Nat) : List JNum := σ.getD r []

/-- `arr[i] = v` through a reference. -/
def writeIdx (σ : Store) (r i : Nat) (v : JNum) : Store :=
  σ.set r ((readArr σ r).set i v)

/-- Allocate a fresh array (JS array literal / `.concat()` result),
returning its reference. -/
def alloc (σ : Store) (a : List JNum) : Store × Nat :=
  (σ ++ [a], σ.length)

/-- `gradientFunction` with the arrays it touches held in a store:
`rx`, `re`, `rp` are the references of `data.x`, `evaluatedData` and
`params`.  Per outer iteration the body allocates `auxParams` as a fresh
copy of `params` (`params.concat()`), mutates slot `param` of the copy in
place, and reads `data.x`/`evaluatedData` through the store while filling
the row.  The local `ans` rows are written only at freshly created
positions and are returned as the resulting matrix. -/
def gradFnBody (rx re rp : Nat) (gradientDifference : JNum) (f : ModelFn) (m : Nat)
    (acc : Store × Mat) (param : Nat) : Store × Mat :=
  -- one outer-loop iteration: allocate the copy, mutate its slot, fill the row

  let a1 := alloc acc.1 (readArr acc.1 rp)
  let aux := a1.2
  let σ₂ := writeIdx a1.1 aux param
    (jadd ((readArr a1.1 aux).getD param JNum.nan) gradientDifference)
  let funcParam := f (readArr σ₂ aux)
  let row := (List.range m).map (fun point =>
    jsub ((readArr σ₂ re).getD point JNum.nan)
      (funcParam ((readArr σ₂ rx).getD point JNum.nan)))
  (σ₂, acc.2 ++ [row])

def gradFnSt (σ₀ : Store) (rx re rp : Nat) (gradientDifference : JNum) (f : ModelFn) :
    Store × Mat :=
  let n := (readArr σ₀ rp).length
  let m := (readArr σ₀ rx).length
  (List.range n).foldl (gradFnBody rx re rp gradientDifference f m) (σ₀, [])

/-- `error` with the arrays it touches held in a store: `rx`, `ry`, `rp`
are the references of `data.x`, `data.y` and `params`.  The function only
reads; the store is threaded through the loop untouched. -/
def errorSt (σ : Store) (rx ry rp : Nat) (f : ModelFn) : Store × JNum :=
  let func := f (readArr σ rp)
  (List.range (readArr σ rx).length).foldl
    (fun acc i =>
      (acc.1, jadd acc.2 (jabs (jsub ((readArr acc.1 ry).getD i JNum.nan)
        (func ((readArr acc.1 rx).getD i JNum.nan))))))
    (σ, JNum.num 0)

/-- `step` with all JS arrays held in the store: `rx`, `ry`, `rpar` are
the references of `data.x`, `data.y`, `params`.  The body allocates the
fresh local `evaluatedData` (`new Array(l)`, holes modelled as invalid
entries), fills it in place, calls the store-level `gradientFunction`,
performs the pure mathjs matrix algebra on the values read back, and
allocates the result row returned by `.toArray()[0]`.  Returns the store
and the reference of the freshly allocated result vector. -/
def stepStR (σ : Store) (rx ry rpar : Nat) (damping gradientDifference : JNum)
    (f : ModelFn) : Store × Nat :=
  let l := (readArr σ rx).length
  let a1 := alloc σ (List.replicate l JNum.nan)
  let re := a1.2
  let func := f (readArr a1.1 rpar)
  let σ₂ := (List.range l).foldl
    (fun σ' i => writeIdx σ' re i (func ((readArr σ' rx).getD i JNum.nan))) a1.1
  let g := gradFnSt σ₂ rx re rpar gradientDifference f
  let σ₃ := g.1
  let gradientFunc := g.2
  let dataNow : DataSet := ⟨readArr σ₃ rx, readArr σ₃ ry⟩
  let params := readArr σ₃ rpar
  let matrixFunc := transposeM (matrixFunction dataNow (readArr σ₃ re))
  let inverse := jinv (madd (identityM params.length damping gradientDifference)
    (mmul gradientFunc (transposeM gradientFunc)))
  let pRow := (msubM [params]
    (transposeM (smulE (mmul (mmul inverse gradientFunc) matrixFunc)
      gradientDifference))).getD 0 []
  let a2 := alloc σ₃ pRow
  (a2.1, a2.2)

/-- Phase-1 loop state in the store model: `par` is a reference. -/
structure P1StSt where
  parRef : Nat
  damp : JNum
  count : Nat
  errD : JNum
  errV : JNum
deriving DecidableEq, Repr

/-- The phase-1 loop body in the store model, threading the store through
the two `step` and two `error` calls (the body always leaves the store at
the state after the second `error` call, whichever branch is taken). -/
def p1BodySt (σ : Store) (rx ry : Nat) (f : ModelFn) (gradientDifference v err : JNum)
    (st : P1StSt) : Store × P1StSt × Bool :=
  let sD := stepStR σ rx ry st.parRef st.damp gradientDifference f
  let eD := errorSt sD.1 rx ry sD.2 f
  let sV := stepStR eD.1 rx ry st.parRef (jdiv st.damp v) gradientDifference f
  let eV := errorSt sV.1 rx ry sV.2 f
  (eV.1,
    if jgt err eD.2 || jgt err eV.2 then
      if jgt eD.2 eV.2 then
        ({ parRef := sV.2, damp := jdiv st.damp v, count := st.count + 1,
           errD := eD.2, errV := eV.2 }, false)
      else
        ({ st with errD := eD.2, errV := eV.2 }, true)
    else
      ({ st with
          damp := jmul st.damp v, count := st.count + 1,
          errD := eD.2, errV := eV.2 }, false))

/-- The phase-1 `do`-`while` loop in the store model. -/
def phase1LoopSt (rx ry : Nat) (f : ModelFn) (gradientDifference v err : JNum)
    (maxIterations : Nat) : Nat → Store → P1StSt → Store × Option P1StSt
  | 0, σ, _ => (σ, none)
  | fuel + 1, σ, st =>
      let out := p1BodySt σ rx ry f gradientDifference v err st
      if out.2.2 then (out.1, some out.2.1)
      else if jlt err out.2.1.errD || jlt err out.2.1.errV ||
          decide (out.2.1.count < maxIterations) then
        phase1LoopSt rx ry f gradientDifference v err maxIterations fuel out.1 out.2.1
      else (out.1, some out.2.1)

/-- Phase-2 loop state in the store model: `parameters` and `lastParams`
are references (JS assignment between them copies the reference). -/
structure P2StSt where
  paramsRef : Nat
  err : JNum
  converged : Bool
  lastRef : Nat
  i : Nat
deriving DecidableEq, Repr

/-- The phase-2 `for` loop in the store model. -/
def phase2GoSt (rx ry : Nat) (f : ModelFn) (gradientDifference damp errorTolerance : JNum)
    (maxIterations : Nat) : Nat → Store → P2StSt → Store × P2StSt
  | 0, σ, st => (σ, st)
  | fuel + 1, σ, st =>
      if decide (st.i < maxIterations) && !st.converged then
        let stepped := stepStR σ rx ry st.paramsRef damp gradientDifference f
        let e := errorSt stepped.1 rx ry stepped.2 f
        if isNaN e.2 then
          (e.1, { st with paramsRef := stepped.2, err := e.2 })
        else
          phase2GoSt rx ry f gradientDifference damp errorTolerance maxIterations fuel e.1
            { paramsRef := stepped.2, err := e.2, converged := jle e.2 errorTolerance,
              lastRef := stepped.2, i := st.i + 1 }
      else (σ, st)

/-- The result assembly of `lma` (lines 83-87) in the store model,
applied to the phase-2 exit store and state: on a NaN terminal error the
`parameterError` is recomputed through the store and `parameterValues`
is read out of `lastParams`; otherwise `err` and `parameters` are
reported directly. -/
def lmaFinishSt (out : Store × P2StSt) (rx ry : Nat) (f : ModelFn) :
    Store × Option Result :=
  if isNaN out.2.err then
    ((errorSt out.1 rx ry out.2.lastRef f).1,
      some { iterations := out.2.i,
             parameterError := (errorSt out.1 rx ry out.2.lastRef f).2,
             parameterValues :=
               readArr (errorSt out.1 rx ry out.2.lastRef f).1 out.2.lastRef })
  else
    (out.1, some { iterations := out.2.i, parameterError := out.2.err,
                   parameterValues := readArr out.1 out.2.paramsRef })

/-- `lma` in the store model: the caller's arrays `data.x`, `data.y` and
`initialValues` live in the store at `rx`, `ry`, `rInit`; the scalar
configuration fields are passed by value.  Returns the final store and
the `Result` (with `parameterValues` read out of the store), or `none`
when the phase-1 fuel is exhausted. -/
def lmaRunSt (fuel : Nat) (σ : Store) (rx ry rInit : Nat) (f : ModelFn)
    (damping gradientDifference errorTolerance v : JNum) (maxIterations : Nat) :
    Store × Option Result :=
  match (phase1LoopSt rx ry f gradientDifference v (errorSt σ rx ry rInit f).2
      maxIterations fuel (errorSt σ rx ry rInit f).1
      { parRef := rInit, damp := damping, count := 0,
        errD := JNum.nan, errV := JNum.nan }).2 with
  | none =>
      ((phase1LoopSt rx ry f gradientDifference v (errorSt σ rx ry rInit f).2
          maxIterations fuel (errorSt σ rx ry rInit f).1
          { parRef := rInit, damp := damping, count := 0,
            errD := JNum.nan, errV := JNum.nan }).1, none)
  | some st1 =>
      lmaFinishSt
        (phase2GoSt rx ry f gradientDifference st1.damp errorTolerance
          maxIterations maxIterations
          (phase1LoopSt rx ry f gradientDifference v (errorSt σ rx ry rInit f).2
            maxIterations fuel (errorSt σ rx ry rInit f).1
            { parRef := rInit, damp := damping, count := 0,
              errD := JNum.nan, errV := JNum.nan }).1
          { paramsRef := rInit, err := (errorSt σ rx ry rInit f).2,
            converged := jle (errorSt σ rx ry rInit f).2 errorTolerance,
            lastRef := rInit, i := 0 })
        rx ry f

/-- Concrete fit problem: one sample `(0, 0)`, the constant model
`f(params)(x) = params[0]`, initial parameter 1. -/
def exData : DataSet := ⟨[JNum.num 0], [JNum.num 0]⟩

/-- The constant model `f(params)(x) = params[0]`. -/
def exModel : ModelFn := fun ps _ => ps.getD 0 JNum.nan

/-- Configuration for the concrete fit: damping 1, gradientDifference 1,
initialValues `[1]`, maxIterations 1, errorTolerance 1/100, v 2. -/
def exCfg : Config :=
  { damping := JNum.num 1, gradientDifference := JNum.num 1,
    initialValues := [JNum.num 1], maxIterations := 1,
    errorTolerance := JNum.num (1 / 100), v := JNum.num 2 }

/-- A throwaway trace used only as the default of `Option.getD`. -/
def anyTrace : RunTrace :=
  { result := { iterations := 0, parameterError := JNum.nan, parameterValues := [] },
    p1 := { par := [], damp := JNum.nan, count := 0, errD := JNum.nan, errV := JNum.nan },
    p2 := { parameters := [], err := JNum.nan, converged := false, lastParams := [],
            i := 0, total := 0, firstCall := none } }

/-- The trace of the concrete fit on `exData`/`exModel`/`exCfg`. -/
def exTrace : RunTrace := (lmaRun 5 exData exModel exCfg).getD anyTrace

/-- A model that is invalid (NaN) everywhere, e.g. a model dividing by a
parameter initialized to zero. -/
def nanModel : ModelFn := fun _ _ => JNum.nan

/-- Configuration for the NaN fit: damping 0, gradientDifference 1,
initialValues `[0]`, maxIterations 1, errorTolerance 1/100, v 2. -/
def nanCfg : Config :=
  { damping := JNum.num 0, gradientDifference := JNum.num 1,
    initialValues := [JNum.num 0], maxIterations := 1,
    errorTolerance := JNum.num (1 / 100), v := JNum.num 2 }

/-- The trace of the fit whose model is NaN at the initial parameters. -/
def nanTrace : RunTrace := (lmaRun 5 exData nanModel nanCfg).getD anyTrace

/-- A model whose error landscape makes phase 1 loop past `maxIterations`
before breaking: perfect (error 0 against `exData`) strictly between
35/36 and 1, error 1 at the initial parameter 1, error 10 elsewhere. -/
def overModel : ModelFn := fun ps _ =>
  if ps = [JNum.num 1] then JNum.num 1
  else if jgt (ps.getD 0 JNum.nan) (JNum.num (35 / 36))
      && jlt (ps.getD 0 JNum.nan) (JNum.num 1) then JNum.num 0
  else JNum.num 10

/-- A concrete three-array store: `data.x` at 0, `data.y` at 1,
a parameter vector at 2. -/
def store0 : Store := [[JNum.num 0], [JNum.num 0], [JNum.num 1]]

/-! ### Arithmetic facts about `JNum` -/

theorem jadd_zero (a : JNum) : jadd a (JNum.num 0) = a := by
  cases a <;> simp [jadd]

theorem zero_jadd (a : JNum) : jadd (JNum.num 0) a = a := by
  cases a <;> simp [jadd]

theorem jadd_assoc (a b c : JNum) : jadd (jadd a b) c = jadd a (jadd b c) := by
  cases a <;> cases b <;> cases c <;> simp [jadd, add_assoc]

theorem jmul_comm (a b : JNum) : jmul a b = jmul b a := by
  cases a <;> cases b <;> simp [jmul, mul_comm]

theorem jmul_assoc (a b c : JNum) : jmul (jmul a b) c = jmul a (jmul b c) := by
  cases a <;> cases b <;> cases c <;> simp [jmul, mul_assoc]

theorem isNaN_jadd (a b : JNum) : isNaN (jadd a b) = (isNaN a || isNaN b) := by
  cases a <;> cases b <;> simp [jadd, isNaN]

theorem jsub_nan (a : JNum) : jsub a JNum.nan = JNum.nan := by
  cases a <;> rfl

theorem isNaN_eq_nan {a : JNum} (h : isNaN a = true) : a = JNum.nan := by
  cases a with
  | num q => simp [isNaN] at h
  | nan => rfl

/-! ### List access helpers -/

theorem getD_range_map {α : Type} (f : Nat → α) {n p : Nat} (h : p < n) (d : α) :
    ((List.range n).map f).getD p d = f p := by
  rw [List.getD_eq_getElem?_getD, List.getElem?_map, List.getElem?_range h]
  rfl

theorem headD_range_map {α : Type} (f : Nat → α) {n : Nat} (h : 0 < n) (d : α) :
    ((List.range n).map f).headD d = f 0 := by
  cases n with
  | zero => omega
  | succ n => rw [List.range_succ_eq_map]; rfl

/-! ### Shapes of the matrix operations -/

theorem length_transposeM (M : Mat) : (transposeM M).length = (M.headD []).length := by
  simp [transposeM]

theorem length_mmul (A B : Mat) : (mmul A B).length = A.length := by
  simp [mmul]

theorem length_smulE (M : Mat) (c : JNum) : (smulE M c).length = M.length := by
  simp [smulE]

theorem length_jinv (M : Mat) : (jinv M).length = M.length := by
  simp [jinv]

theorem length_madd (A B : Mat) : (madd A B).length = min A.length B.length := by
  simp [madd]

theorem length_eyeM (n : Nat) : (eyeM n).length = n := by
  simp [eyeM]

theorem length_identityM (n : Nat) (damping gd : JNum) :
    (identityM n damping gd).length = n := by
  simp [identityM, length_smulE, length_eyeM]

theorem length_gradientFunction (data : DataSet) (ev params : List JNum)
    (gd : JNum) (f : ModelFn) :
    (gradientFunction data ev params gd f).length = params.length := by
  simp [gradientFunction]

theorem length_inverseMatrix (data : DataSet) (params : List JNum)
    (damping gd : JNum) (f : ModelFn) :
    (inverseMatrix data params damping gd f).length = params.length := by
  simp [inverseMatrix, length_jinv, length_madd, length_identityM, length_mmul,
    length_gradientFunction]

theorem length_chainMat (data : DataSet) (params : List JNum)
    (damping gd : JNum) (f : ModelFn) :
    (chainMat data params damping gd f).length = params.length := by
  simp [chainMat, length_smulE, length_mmul, length_inverseMatrix]

theorem headD_smulE_length (M : Mat) (c : JNum) (h : M ≠ []) :
    ((smulE M c).headD []).length = (M.headD []).length := by
  cases M with
  | nil => simp at h
  | cons r rs => simp [smulE]

theorem headD_mmul_length (A B : Mat) (h : A ≠ []) :
    ((mmul A B).headD []).length = (B.headD []).length := by
  cases A with
  | nil => simp at h
  | cons r rs => simp [mmul, length_transposeM]

theorem headD_transposeM_matrixFunction (data : DataSet) (ev : List JNum)
    (hm : 0 < data.x.length) :
    ((transposeM (matrixFunction data ev)).headD []).length = 1 := by
  rw [matrixFunction, transposeM]
  simp only [List.headD_cons, List.length_map, List.length_range]
  rw [headD_range_map _ hm]
  simp

theorem headD_chainMat_length (data : DataSet) (params : List JNum)
    (damping gd : JNum) (f : ModelFn) (hn : params ≠ []) (hm : 0 < data.x.length) :
    ((chainMat data params damping gd f).headD []).length = 1 := by
  have hnpos : 0 < params.length := List.length_pos.mpr hn
  have h1 : (mmul (inverseMatrix data params damping gd f)
      (gradientFunction data (evalData data params f) params gd f)) ≠ [] := by
    apply List.ne_nil_of_length_pos
    rw [length_mmul, length_inverseMatrix]
    exact hnpos
  have h2 : (mmul
      (mmul (inverseMatrix data params damping gd f)
        (gradientFunction data (evalData data params f) params gd f))
      (transposeM (matrixFunction data (evalData data params f)))) ≠ [] := by
    apply List.ne_nil_of_length_pos
    rw [length_mmul, length_mmul, length_inverseMatrix]
    exact hnpos
  rw [chainMat, headD_smulE_length _ _ h2, headD_mmul_length _ _ h1,
    headD_transposeM_matrixFunction _ _ hm]

/-- Extract row 0 of `subtract([params], transpose(D))` when `D` is a
column (first row of length 1): it is the elementwise difference of
`params` and the column entries of `D`. -/
theorem msub_row_extract (params : List JNum) (D : Mat)
    (h1 : (D.headD []).length = 1) :
    (msubM [params] (transposeM D)).getD 0 [] =
      List.zipWith jsub params (D.map (fun row => row.getD 0 JNum.nan)) := by
  have ht : transposeM D = [D.map (fun row => row.getD 0 JNum.nan)] := by
    rw [transposeM, h1]
    rfl
  rw [ht]
  rfl

/-- `step` as an elementwise difference: `params` minus the column read
off the chained product.  Needs a nonempty dataset (`mathjs` transposes
of empty matrices do not arise in valid runs). -/
theorem step_zip (data : DataSet) (params : List JNum) (damping gd : JNum)
    (f : ModelFn) (hm : 0 < data.x.length) :
    step data params damping gd f =
      List.zipWith jsub params
        ((chainMat data params damping gd f).map (fun row => row.getD 0 JNum.nan)) := by
  cases params with
  | nil =>
      rw [step]
      cases transposeM (chainMat data [] damping gd f) with
      | nil => rfl
      | cons t ts => rfl
  | cons p ps =>
      rw [step]
      exact msub_row_extract (p :: ps) _
        (headD_chainMat_length data (p :: ps) damping gd f (by simp) hm)

theorem smulE_eq_smulF (M : Mat) (c : JNum) : smulE M c = smulF c M := by
  simp [smulE, smulF, jmul_comm]

theorem identityM_eq (n : Nat) (damping gd : JNum) :
    identityM n damping gd = smulE (eyeM n) (jmul damping (jmul gd gd)) := by
  rw [identityM, jmul_assoc]

theorem inverseMatrix_eq (data : DataSet) (params : List JNum)
    (damping gd : JNum) (f : ModelFn) :
    inverseMatrix data params damping gd f =
      jinv (dampedNormal data params damping gd f) := by
  rw [inverseMatrix, dampedNormal, identityM_eq]

theorem chainMat_eq (data : DataSet) (params : List JNum)
    (damping gd : JNum) (f : ModelFn) :
    chainMat data params damping gd f =
      smulF gd
        (mmul
          (mmul (jinv (dampedNormal data params damping gd f))
            (gradientFunction data (evalData data params f) params gd f))
          (transposeM (matrixFunction data (evalData data params f)))) := by
  rw [chainMat, smulE_eq_smulF, inverseMatrix_eq]

/-- C4: for every nonempty dataset, parameter vector, damping and
gradientDifference, StepComputer returns
`newParams = params - gradientDifference * inverse(I*(damping*gradientDifference^2) + J*transpose(J)) * J * transpose(r)`
where `J` is the GradientApproximator matrix at the current parameters,
`r` is the row vector `y - evaluatedData`, `evaluatedData` the model
evaluated at the current parameters over all samples, and `I` the
identity: the code's `step` coincides with the spec formula `stepSpec`. -/
theorem c4_step_formula (data : DataSet) (params : List JNum)
    (damping gd : JNum) (f : ModelFn) (hm : 0 < data.x.length) :
    step data params damping gd f = stepSpec data params damping gd f := by
  rw [step_zip data params damping gd f hm, chainMat_eq]
  simp only [stepSpec, matrixFunction, evalData]

/-- Witness for C4 at a concrete input. -/
theorem c4_step_formula_witness :
    0 < exData.x.length ∧
      step exData [JNum.num 1] (JNum.num 1) (JNum.num 1) exModel =
        stepSpec exData [JNum.num 1] (JNum.num 1) (JNum.num 1) exModel :=
  ⟨by with_unfolding_all decide,
   c4_step_formula exData [JNum.num 1] (JNum.num 1) (JNum.num 1) exModel (by with_unfolding_all decide)⟩

/-- C8: for every valid input (nonempty dataset), the parameter vector
returned by StepComputer has the same length as the input parameter
vector. -/
theorem c8_step_length (data : DataSet) (params : List JNum)
    (damping gd : JNum) (f : ModelFn) (hm : 0 < data.x.length) :
    (step data params damping gd f).length = params.length := by
  rw [step_zip data params damping gd f hm]
  simp [List.length_zipWith, length_chainMat]

/-- Witness for C8 at a concrete input. -/
theorem c8_step_length_witness :
    0 < exData.x.length ∧
      (step exData [JNum.num 1, JNum.num 2] (JNum.num 1) (JNum.num 1) exModel).length =
        ([JNum.num 1, JNum.num 2] : List JNum).length :=
  ⟨by with_unfolding_all decide,
   c8_step_length exData [JNum.num 1, JNum.num 2] (JNum.num 1) (JNum.num 1) exModel
     (by with_unfolding_all decide)⟩

/-! ### ErrorEvaluator -/

theorem foldl_jadd_eq {α : Type} (g : α → JNum) (l : List α) (a : JNum) :
    l.foldl (fun acc x => jadd acc (g x)) a = jadd a (jsum (l.map g)) := by
  induction l generalizing a with
  | nil => simp [jsum, jadd_zero]
  | cons x xs ih =>
      rw [List.foldl_cons, ih]
      simp only [List.map_cons, jsum, List.foldr_cons]
      rw [jadd_assoc]

theorem error_eq_errorSpec (data : DataSet) (params : List JNum) (f : ModelFn) :
    error data params f = errorSpec data params f := by
  rw [error, errorSpec, foldl_jadd_eq, zero_jadd]

theorem jsum_of_nan_mem {l : List JNum} (h : JNum.nan ∈ l) : jsum l = JNum.nan := by
  induction l with
  | nil => simp at h
  | cons x xs ih =>
      rcases List.mem_cons.mp h with h1 | h2
      · rw [← h1]
        show jadd JNum.nan (jsum xs) = JNum.nan
        cases jsum xs <;> rfl
      · show jadd x (jsum xs) = JNum.nan
        rw [ih h2]
        cases x <;> rfl

/-- C6: ErrorEvaluator returns exactly the sum over all samples of the
absolute residuals, and if the model evaluator produces not-a-number for
any sample the result is not-a-number (propagated, not caught). -/
theorem c6_error_sum (data : DataSet) (params : List JNum) (f : ModelFn) :
    error data params f = errorSpec data params f ∧
    (∀ i, i < data.x.length → isNaN (f params (data.x.getD i JNum.nan)) = true →
      isNaN (error data params f) = true) := by
  refine ⟨error_eq_errorSpec data params f, ?_⟩
  intro i hi hnan
  rw [error_eq_errorSpec data params f]
  have hmem : JNum.nan ∈ (List.range data.x.length).map (fun i =>
      jabs (jsub (data.y.getD i JNum.nan) (f params (data.x.getD i JNum.nan)))) := by
    refine List.mem_map.mpr ⟨i, List.mem_range.mpr hi, ?_⟩
    rw [isNaN_eq_nan hnan, jsub_nan]
    rfl
  rw [errorSpec, jsum_of_nan_mem hmem]
  rfl

/-- Witness for C6 at a concrete input (a model that is NaN at sample 0). -/
theorem c6_error_sum_witness :
    (error exData [JNum.num 0] nanModel = errorSpec exData [JNum.num 0] nanModel) ∧
    0 < exData.x.length ∧
    isNaN (nanModel [JNum.num 0] (exData.x.getD 0 JNum.nan)) = true ∧
    isNaN (error exData [JNum.num 0] nanModel) = true :=
  ⟨(c6_error_sum exData [JNum.num 0] nanModel).1, by with_unfolding_all decide, by with_unfolding_all decide,
   (c6_error_sum exData [JNum.num 0] nanModel).2 0 (by with_unfolding_all decide) (by with_unfolding_all decide)⟩

/-- C5: GradientApproximator returns an n-by-m matrix whose entry at row
`p`, column `point` is `evaluatedData[point]` minus the value at
`x[point]` of the evaluator built from the parameter vector with slot `p`
incremented by `gradientDifference` (an absolute, unscaled step). -/
theorem c5_gradient_entries (data : DataSet) (ev params : List JNum)
    (gd : JNum) (f : ModelFn) :
    (gradientFunction data ev params gd f).length = params.length ∧
    (∀ row ∈ gradientFunction data ev params gd f, row.length = data.x.length) ∧
    (∀ p pt, p < params.length → pt < data.x.length →
      ((gradientFunction data ev params gd f).getD p []).getD pt JNum.nan =
        jsub (ev.getD pt JNum.nan)
          (f (params.set p (jadd (params.getD p JNum.nan) gd))
            (data.x.getD pt JNum.nan))) := by
  refine ⟨length_gradientFunction _ _ _ _ _, ?_, ?_⟩
  · intro row hrow
    rw [gradientFunction] at hrow
    obtain ⟨p, _, hrow⟩ := List.mem_map.mp hrow
    rw [← hrow]
    simp
  · intro p pt hp hpt
    rw [gradientFunction, getD_range_map _ hp]
    simp only []
    rw [getD_range_map _ hpt]

/-- Witness for C5 at a concrete input. -/
theorem c5_gradient_entries_witness :
    0 < ([JNum.num 1] : List JNum).length ∧ 0 < exData.x.length ∧
      ((gradientFunction exData [JNum.num 1] [JNum.num 1] (JNum.num 1) exModel).getD 0
          []).getD 0 JNum.nan =
        jsub (([JNum.num 1] : List JNum).getD 0 JNum.nan)
          (exModel
            (([JNum.num 1] : List JNum).set 0
              (jadd (([JNum.num 1] : List JNum).getD 0 JNum.nan) (JNum.num 1)))
            (exData.x.getD 0 JNum.nan)) :=
  ⟨by with_unfolding_all decide, by with_unfolding_all decide,
   (c5_gradient_entries exData [JNum.num 1] [JNum.num 1] (JNum.num 1) exModel).2.2 0 0
     (by with_unfolding_all decide) (by with_unfolding_all decide)⟩

/-! ### Phase 1 (damping bracketing) -/

/-- C3: the phase-1 damping-bracketing loop follows exactly the stated
per-iteration logic (stepD/errD at `damp`, stepV/errV at `damp / v`;
accept `stepV` and divide the damping when an improving candidate exists
and `errD > errV`, exit the loop otherwise; multiply the damping when no
candidate improves; increment the counter on the non-exit paths), and it
continues exactly while `err < errD` or `err < errV` or
`counter < maxIterations` — so it can run past `maxIterations` (last
conjunct but one: exit counter 2 with a budget of 1) and can stop before
the budget is spent (last conjunct: exit counter 0 with a budget of 100). -/
theorem c3_phase1_bracketing :
    (∀ (data : DataSet) (f : ModelFn) (gd v err : JNum) (st : P1St),
      p1Body data f gd v err st =
        (let stepD := step data st.par st.damp gd f
         let errD := error data stepD f
         let stepV := step data st.par (jdiv st.damp v) gd f
         let errV := error data stepV f
         if jgt err errD || jgt err errV then
           if jgt errD errV then
             ({ par := stepV, damp := jdiv st.damp v, count := st.count + 1,
                errD := errD, errV := errV }, false)
           else ({ st with errD := errD, errV := errV }, true)
         else
           ({ st with
               damp := jmul st.damp v, count := st.count + 1,
               errD := errD, errV := errV }, false))) ∧
    (∀ (err : JNum) (maxIterations : Nat) (st : P1St),
      p1Cond err maxIterations st =
        (jlt err st.errD || jlt err st.errV || decide (st.count < maxIterations))) ∧
    (∀ (data : DataSet) (f : ModelFn) (gd v err : JNum) (maxIterations fuel : Nat)
        (st : P1St),
      phase1Loop data f gd v err maxIterations (fuel + 1) st =
        (let out := p1Body data f gd v err st
         if out.2 then some out.1
         else if p1Cond err maxIterations out.1 then
           phase1Loop data f gd v err maxIterations fuel out.1
         else some out.1)) ∧
    (phase1Loop exData overModel (JNum.num 1) (JNum.num 2)
        (error exData [JNum.num 1] overModel) 1 10
        { par := [JNum.num 1], damp := JNum.num 81, count := 0,
          errD := JNum.nan, errV := JNum.nan } =
      some { par := [JNum.num 1], damp := JNum.num 324, count := 2,
             errD := JNum.num 0, errV := JNum.num 10 } ∧ 1 < 2) ∧
    (phase1Loop exData exModel (JNum.num 1) (JNum.num 2)
        (error exData [JNum.num 1] exModel) 100 5
        { par := [JNum.num 1], damp := JNum.num 0, count := 0,
          errD := JNum.nan, errV := JNum.nan } =
      some { par := [JNum.num 1], damp := JNum.num 0, count := 0,
             errD := JNum.num 0, errV := JNum.num 0 } ∧ 0 < 100) :=
  ⟨fun _ _ _ _ _ _ => rfl, fun _ _ _ => rfl, fun _ _ _ _ _ _ _ _ => rfl,
   ⟨by with_unfolding_all decide, by with_unfolding_all decide⟩, ⟨by with_unfolding_all decide, by with_unfolding_all decide⟩⟩

/-! ### Phase 2 (refinement) bookkeeping -/

theorem phase2Go_firstCall_some (data : DataSet) (f : ModelFn)
    (gd damp tol : JNum) (maxIterations : Nat) :
    ∀ (fuel : Nat) (st : P2St) (v : List JNum), st.firstCall = some v →
      (phase2Go data f gd damp tol maxIterations fuel st).firstCall = some v := by
  intro fuel
  induction fuel with
  | zero => intro st v h; exact h
  | succ n ih =>
      intro st v h
      rw [phase2Go]
      by_cases hg : (decide (st.i < maxIterations) && !st.converged) = true
      · rw [if_pos hg, h]
        by_cases hn : isNaN (error data (step data st.parameters damp gd f) f) = true
        · rw [if_pos hn]
        · rw [if_neg hn]
          exact ih _ v rfl
      · rw [if_neg hg]
        exact h

theorem phase2Go_firstCall_of_none (data : DataSet) (f : ModelFn)
    (gd damp tol : JNum) (maxIterations fuel : Nat) (st : P2St)
    (h : st.firstCall = none) :
    (phase2Go data f gd damp tol maxIterations fuel st).firstCall = none ∨
      (phase2Go data f gd damp tol maxIterations fuel st).firstCall =
        some st.parameters := by
  cases fuel with
  | zero => exact Or.inl h
  | succ n =>
      rw [phase2Go]
      by_cases hg : (decide (st.i < maxIterations) && !st.converged) = true
      · rw [if_pos hg, h]
        by_cases hn : isNaN (error data (step data st.parameters damp gd f) f) = true
        · rw [if_pos hn]
          exact Or.inr rfl
        · rw [if_neg hn]
          exact Or.inr (phase2Go_firstCall_some data f gd damp tol maxIterations n _
            st.parameters rfl)
      · rw [if_neg hg]
        exact Or.inl h

theorem phase2Go_counters (data : DataSet) (f : ModelFn)
    (gd damp tol : JNum) (maxIterations : Nat) :
    ∀ (fuel : Nat) (st : P2St), st.total = st.i → st.i ≤ maxIterations →
      (phase2Go data f gd damp tol maxIterations fuel st).i ≤ maxIterations ∧
      ((phase2Go data f gd damp tol maxIterations fuel st).total =
          (phase2Go data f gd damp tol maxIterations fuel st).i ∨
        ((phase2Go data f gd damp tol maxIterations fuel st).total =
            (phase2Go data f gd damp tol maxIterations fuel st).i + 1 ∧
          isNaN (phase2Go data f gd damp tol maxIterations fuel st).err = true)) := by
  intro fuel
  induction fuel with
  | zero => intro st ht hi; exact ⟨hi, Or.inl ht⟩
  | succ n ih =>
      intro st ht hi
      rw [phase2Go]
      by_cases hg : (decide (st.i < maxIterations) && !st.converged) = true
      · have hlt : st.i < maxIterations := by
          have := (Bool.and_eq_true _ _).mp hg
          exact of_decide_eq_true this.1
        rw [if_pos hg]
        by_cases hn : isNaN (error data (step data st.parameters damp gd f) f) = true
        · rw [if_pos hn]
          exact ⟨hi, Or.inr ⟨by rw [ht], hn⟩⟩
        · rw [if_neg hn]
          exact ih _ (by rw [ht]) hlt
      · rw [if_neg hg]
        exact ⟨hi, Or.inl ht⟩

/-- Destructuring of a successful `lmaRun`: the phase-1 loop exits with
`t.p1`, phase 2 runs from `p2Init` with the phase-1 exit damping, and the
result object is assembled from the phase-2 exit state. -/
theorem lmaRun_elim (fuel : Nat) (data : DataSet) (f : ModelFn) (cfg : Config)
    (t : RunTrace) (h : lmaRun fuel data f cfg = some t) :
    phase1Loop data f cfg.gradientDifference cfg.v (error data cfg.initialValues f)
        cfg.maxIterations fuel (p1Init cfg) = some t.p1 ∧
    t.p2 = phase2Go data f cfg.gradientDifference t.p1.damp cfg.errorTolerance
        cfg.maxIterations cfg.maxIterations (p2Init data f cfg) ∧
    t.result =
      { iterations := t.p2.i,
        parameterError :=
          if isNaN t.p2.err then error data t.p2.lastParams f else t.p2.err,
        parameterValues :=
          if isNaN t.p2.err then t.p2.lastParams else t.p2.parameters } := by
  rw [lmaRun] at h
  cases hp : phase1Loop data f cfg.gradientDifference cfg.v
      (error data cfg.initialValues f) cfg.maxIterations fuel (p1Init cfg) with
  | none => rw [hp] at h; cases h
  | some st1 =>
      rw [hp] at h
      have ht := Option.some.inj h
      rw [← ht]
      exact ⟨rfl, rfl, rfl⟩

/-- C1 (amended): phase 2 starts from the damping fixed by phase 1 but
from the original `initialValues`, not from the phase-1 `par`: the first
phase-2 StepComputer call (when it happens) receives `cfg.initialValues`,
and phase 2 is run with `t.p1.damp` from the `p2Init` state. -/
theorem c1_phase2_inputs (fuel : Nat) (data : DataSet) (f : ModelFn) (cfg : Config)
    (t : RunTrace) (h : lmaRun fuel data f cfg = some t) :
    (t.p2.firstCall = none ∨ t.p2.firstCall = some cfg.initialValues) ∧
    t.p2 = phase2Go data f cfg.gradientDifference t.p1.damp cfg.errorTolerance
      cfg.maxIterations cfg.maxIterations (p2Init data f cfg) := by
  obtain ⟨hp, h2, hr⟩ := lmaRun_elim fuel data f cfg t h
  refine ⟨?_, h2⟩
  rw [h2]
  exact phase2Go_firstCall_of_none data f cfg.gradientDifference t.p1.damp
    cfg.errorTolerance cfg.maxIterations cfg.maxIterations (p2Init data f cfg) rfl

/-- Witness for the amended C1 at a concrete input. -/
theorem c1_phase2_inputs_witness :
    lmaRun 5 exData exModel exCfg = some exTrace ∧
    ((exTrace.p2.firstCall = none ∨ exTrace.p2.firstCall = some exCfg.initialValues) ∧
      exTrace.p2 = phase2Go exData exModel exCfg.gradientDifference exTrace.p1.damp
        exCfg.errorTolerance exCfg.maxIterations exCfg.maxIterations
        (p2Init exData exModel exCfg)) :=
  ⟨by with_unfolding_all decide, c1_phase2_inputs 5 exData exModel exCfg exTrace (by with_unfolding_all decide)⟩

/-- Counterexample to C1 as stated: on the concrete fit
`exData`/`exModel`/`exCfg`, phase 1 exits with `par = [1/3]`, yet the
first phase-2 StepComputer call receives the original initial values
`[1]`, not the phase-1 `par`. -/
theorem c1_counterexample :
    lmaRun 5 exData exModel exCfg = some exTrace ∧
    exTrace.p2.firstCall = some exCfg.initialValues ∧
    exTrace.p1.par = [JNum.num (1 / 3)] ∧
    exCfg.initialValues ≠ [JNum.num (1 / 3)] := by
  with_unfolding_all decide

/-- C2 (amended): when the terminal phase-2 error is not-a-number the
result reports `lastParams` as `parameterValues` and recomputes
`parameterError` by ErrorEvaluator on `lastParams`; otherwise it reports
`err` and `parameters` directly.  (The recomputed error may itself be
not-a-number when the model is invalid at `lastParams`, e.g. at the
initial parameters — see the counterexample.) -/
theorem c2_nan_result (fuel : Nat) (data : DataSet) (f : ModelFn) (cfg : Config)
    (t : RunTrace) (h : lmaRun fuel data f cfg = some t) :
    (isNaN t.p2.err = true →
      t.result.parameterValues = t.p2.lastParams ∧
      t.result.parameterError = error data t.p2.lastParams f) ∧
    (isNaN t.p2.err = false →
      t.result.parameterValues = t.p2.parameters ∧
      t.result.parameterError = t.p2.err) := by
  obtain ⟨hp, h2, hr⟩ := lmaRun_elim fuel data f cfg t h
  constructor <;> intro hn <;> rw [hr] <;> simp [hn]

/-- Witness for the amended C2 at a concrete input whose terminal error
is not-a-number. -/
theorem c2_nan_result_witness :
    lmaRun 5 exData nanModel nanCfg = some nanTrace ∧
    isNaN nanTrace.p2.err = true ∧
    (nanTrace.result.parameterValues = nanTrace.p2.lastParams ∧
      nanTrace.result.parameterError = error exData nanTrace.p2.lastParams nanModel) :=
  ⟨by with_unfolding_all decide, by with_unfolding_all decide,
   (c2_nan_result 5 exData nanModel nanCfg nanTrace (by with_unfolding_all decide)).1 (by with_unfolding_all decide)⟩

/-- Counterexample to C2 as stated: a model that is not-a-number at the
initial parameters.  `lastParams` is still the initial values, so the
recomputed `parameterError` is itself not-a-number — NaN does surface as
the returned `parameterError` (while `parameterValues` stays NaN-free). -/
theorem c2_counterexample :
    (lma 5 exData nanModel nanCfg).map (fun r => isNaN r.parameterError) = some true ∧
    (lma 5 exData nanModel nanCfg).map Result.parameterValues = some [JNum.num 0] := by
  with_unfolding_all decide

/-- C7 (amended): the `iterations` field equals the phase-2 counter `i`,
which never exceeds `maxIterations` and counts exactly the phase-2 steps
that completed without a not-a-number error: a NaN-producing step is
executed (`total = i + 1`) but not counted. -/
theorem c7_iterations (fuel : Nat) (data : DataSet) (f : ModelFn) (cfg : Config)
    (t : RunTrace) (h : lmaRun fuel data f cfg = some t) :
    t.result.iterations = t.p2.i ∧ t.p2.i ≤ cfg.maxIterations ∧
    (t.p2.total = t.p2.i ∨ (t.p2.total = t.p2.i + 1 ∧ isNaN t.p2.err = true)) := by
  obtain ⟨hp, h2, hr⟩ := lmaRun_elim fuel data f cfg t h
  have hc := phase2Go_counters data f cfg.gradientDifference t.p1.damp
    cfg.errorTolerance cfg.maxIterations cfg.maxIterations (p2Init data f cfg) rfl
    (Nat.zero_le _)
  rw [← h2] at hc
  exact ⟨by rw [hr], hc.1, hc.2⟩

/-- Witness for the amended C7 at a concrete input. -/
theorem c7_iterations_witness :
    lmaRun 5 exData exModel exCfg = some exTrace ∧
    (exTrace.result.iterations = exTrace.p2.i ∧
      exTrace.p2.i ≤ exCfg.maxIterations ∧
      (exTrace.p2.total = exTrace.p2.i ∨
        (exTrace.p2.total = exTrace.p2.i + 1 ∧ isNaN exTrace.p2.err = true))) :=
  ⟨by with_unfolding_all decide, c7_iterations 5 exData exModel exCfg exTrace (by with_unfolding_all decide)⟩

/-- Counterexample to C7 as stated: on the NaN fit one phase-2 step is
executed (`total = 1`) and it produced the NaN error that stopped the
phase, yet the returned `iterations` is 0 — the NaN-producing step is
not included in the count. -/
theorem c7_counterexample :
    lmaRun 5 exData nanModel nanCfg = some nanTrace ∧
    nanTrace.p2.total = 1 ∧ nanTrace.result.iterations = 0 := by
  with_unfolding_all decide

/-! ### Options handling -/

/-- C9 (amended): the stated defaults apply only when the whole options
argument is omitted (JS default-parameter semantics), in which case
`initialValues` is additionally inferred from the model function's arity
as an array of holes; a caller-supplied options object is taken as-is and
its omitted fields stay `undefined`. -/
theorem c9_defaults (arity : Nat) (o : RawOptions) :
    resolveOptions none arity = defaultOptions arity ∧
    (defaultOptions arity).damping = some (JNum.num 0) ∧
    (defaultOptions arity).gradientDifference = some (JNum.num (1 / 10)) ∧
    (defaultOptions arity).maxIterations = some 100 ∧
    (defaultOptions arity).errorTolerance = some (JNum.num (1 / 100)) ∧
    (defaultOptions arity).v = some (JNum.num (3 / 2)) ∧
    (defaultOptions arity).initialValues = some (List.replicate arity JNum.nan) ∧
    resolveOptions (some o) arity = o :=
  ⟨rfl, rfl, rfl, rfl, rfl, rfl, rfl, rfl⟩

/-- Counterexample to C9 as stated: supplying an options object with all
fields omitted does not produce the per-field defaults (`maxIterations`
stays undefined, not 100), and omitting the object entirely does infer
`initialValues` from the model's arity (contradicting "no inference"). -/
theorem c9_counterexample :
    (resolveOptions (some emptyOptions) 2).maxIterations = none ∧
    (resolveOptions (some emptyOptions) 2).maxIterations ≠ some 100 ∧
    (resolveOptions none 2).initialValues = some (List.replicate 2 JNum.nan) := by
  with_unfolding_all decide

/-! ### The store model: no operation mutates its inputs -/

theorem readArr_append_left (σ t : Store) (r : Nat) (h : r < σ.length) :
    readArr (σ ++ t) r = readArr σ r :=
  List.getD_append σ t [] r h

theorem readArr_append_self (σ : Store) (a : List JNum) :
    readArr (σ ++ [a]) σ.length = a := by
  rw [readArr, List.getD_append_right σ [a] [] σ.length (le_refl _)]
  simp

theorem set_append_len (σ : Store) (a x : List JNum) :
    (σ ++ [a]).set σ.length x = σ ++ [x] := by
  induction σ with
  | nil => rfl
  | cons hd tl ih =>
      show hd :: (tl ++ [a]).set tl.length x = hd :: (tl ++ [x])
      rw [ih]

theorem writeIdx_append (σ : Store) (a : List JNum) (i : Nat) (v : JNum) :
    writeIdx (σ ++ [a]) σ.length i v = σ ++ [a.set i v] := by
  rw [writeIdx, readArr_append_self, set_append_len]

/-- The copy perturbed by one `gradientFunction` outer-loop iteration. -/
theorem gradFnBody_eq (rx re rp : Nat) (gd : JNum) (f : ModelFn) (m : Nat)
    (σ₀ t : Store) (rows : Mat)
    (hrx : rx < σ₀.length) (hre : re < σ₀.length) (hrp : rp < σ₀.length) (p : Nat) :
    gradFnBody rx re rp gd f m (σ₀ ++ t, rows) p =
      (σ₀ ++ (t ++ [(readArr σ₀ rp).set p (jadd ((readArr σ₀ rp).getD p JNum.nan) gd)]),
       rows ++ [(List.range m).map (fun pt =>
         jsub ((readArr σ₀ re).getD pt JNum.nan)
           (f ((readArr σ₀ rp).set p (jadd ((readArr σ₀ rp).getD p JNum.nan) gd))
             ((readArr σ₀ rx).getD pt JNum.nan)))]) := by
  have hrx2 : rx < (σ₀ ++ t).length := by
    rw [List.length_append]; omega
  have hre2 : re < (σ₀ ++ t).length := by
    rw [List.length_append]; omega
  have hrp2 : rp < (σ₀ ++ t).length := by
    rw [List.length_append]; omega
  rw [gradFnBody]
  simp only [alloc, writeIdx_append, readArr_append_left _ _ _ hrp2,
    readArr_append_left _ _ _ hrp, ← List.append_assoc]
  rw [readArr_append_self]
  simp only [List.append_assoc, readArr_append_left _ _ _ hre2,
    readArr_append_left _ _ _ hre, readArr_append_left _ _ _ hrx2,
    readArr_append_left _ _ _ hrx]
  simp only [← List.append_assoc, readArr_append_self]

theorem gradFnFold (rx re rp : Nat) (gd : JNum) (f : ModelFn) (m : Nat) (σ₀ : Store)
    (hrx : rx < σ₀.length) (hre : re < σ₀.length) (hrp : rp < σ₀.length) :
    ∀ (l : List Nat) (t : Store) (rows : Mat),
      l.foldl (gradFnBody rx re rp gd f m) (σ₀ ++ t, rows) =
        (σ₀ ++ (t ++ l.map (fun p =>
            (readArr σ₀ rp).set p (jadd ((readArr σ₀ rp).getD p JNum.nan) gd))),
         rows ++ l.map (fun p => (List.range m).map (fun pt =>
           jsub ((readArr σ₀ re).getD pt JNum.nan)
             (f ((readArr σ₀ rp).set p (jadd ((readArr σ₀ rp).getD p JNum.nan) gd))
               ((readArr σ₀ rx).getD pt JNum.nan))))) := by
  intro l
  induction l with
  | nil => intro t rows; simp
  | cons p l ih =>
      intro t rows
      rw [List.foldl_cons, gradFnBody_eq rx re rp gd f m σ₀ t rows hrx hre hrp p, ih]
      simp

theorem gradFnBody_fst_ext (rx re rp : Nat) (gd : JNum) (f : ModelFn) (m : Nat)
    (acc : Store × Mat) (p : Nat) :
    (gradFnBody rx re rp gd f m acc p).1 =
      acc.1 ++ [(readArr acc.1 rp).set p
        (jadd ((readArr acc.1 rp).getD p JNum.nan) gd)] := by
  rw [gradFnBody]
  simp only [alloc, writeIdx_append]
  rw [readArr_append_self]

theorem gradFnFold_fst_ext (rx re rp : Nat) (gd : JNum) (f : ModelFn) (m : Nat) :
    ∀ (l : List Nat) (acc : Store × Mat),
      ∃ u, (l.foldl (gradFnBody rx re rp gd f m) acc).1 = acc.1 ++ u := by
  intro l
  induction l with
  | nil => intro acc; exact ⟨[], by simp⟩
  | cons p l ih =>
      intro acc
      rw [List.foldl_cons]
      obtain ⟨u, hu⟩ := ih (gradFnBody rx re rp gd f m acc p)
      rw [hu, gradFnBody_fst_ext]
      exact ⟨_, by rw [List.append_assoc]⟩

theorem gradFnSt_ext (σ : Store) (rx re rp : Nat) (gd : JNum) (f : ModelFn) :
    ∃ u, (gradFnSt σ rx re rp gd f).1 = σ ++ u := by
  rw [gradFnSt]
  exact gradFnFold_fst_ext rx re rp gd f (readArr σ rx).length _ (σ, [])

theorem gradFnSt_frame (σ : Store) (rx re rp : Nat) (gd : JNum) (f : ModelFn)
    (r : Nat) (h : r < σ.length) :
    readArr (gradFnSt σ rx re rp gd f).1 r = readArr σ r := by
  obtain ⟨u, hu⟩ := gradFnSt_ext σ rx re rp gd f
  rw [hu, readArr_append_left _ _ _ h]

theorem gradFnSt_agree (σ : Store) (rx re rp : Nat) (gd : JNum) (f : ModelFn)
    (ys : List JNum) (hrx : rx < σ.length) (hre : re < σ.length)
    (hrp : rp < σ.length) :
    (gradFnSt σ rx re rp gd f).2 =
      gradientFunction ⟨readArr σ rx, ys⟩ (readArr σ re) (readArr σ rp) gd f := by
  rw [gradFnSt, gradientFunction]
  have h := gradFnFold rx re rp gd f (readArr σ rx).length σ hrx hre hrp
    (List.range (readArr σ rp).length) [] []
  rw [List.append_nil] at h
  rw [h]
  simp

theorem foldl_store_snd (h : Store → Nat → JNum → JNum) (σ : Store) :
    ∀ (l : List Nat) (a : JNum),
      l.foldl (fun acc i => (acc.1, h acc.1 i acc.2)) (σ, a) =
        (σ, l.foldl (fun a i => h σ i a) a) := by
  intro l
  induction l with
  | nil => intro a; rfl
  | cons i l ih => intro a; rw [List.foldl_cons, List.foldl_cons]; exact ih _

theorem errorSt_eq (σ : Store) (rx ry rp : Nat) (f : ModelFn) :
    errorSt σ rx ry rp f =
      (σ, error ⟨readArr σ rx, readArr σ ry⟩ (readArr σ rp) f) := by
  rw [errorSt, error]
  exact foldl_store_snd
    (fun σ' i a => jadd a (jabs (jsub ((readArr σ' ry).getD i JNum.nan)
      (f (readArr σ rp) ((readArr σ' rx).getD i JNum.nan))))) σ _ _

theorem foldl_set_getElem (val : Nat → JNum) :
    ∀ (js : List Nat) (arr : List JNum) (j : Nat),
      (js.foldl (fun a i => a.set i (val i)) arr)[j]? =
        if j ∈ js ∧ j < arr.length then some (val j) else arr[j]? := by
  intro js
  induction js with
  | nil => intro arr j; simp
  | cons i rest ih =>
      intro arr j
      rw [List.foldl_cons, ih]
      by_cases h2 : j < arr.length
      · by_cases h1 : j ∈ rest
        · simp [h1, h2, List.length_set]
        · by_cases hij : i = j
          · subst hij
            simp [h1, h2, List.length_set, List.getElem?_set]
          · have hji : ¬ j = i := fun h => hij h.symm
            simp [h1, h2, hij, hji, List.length_set, List.getElem?_set, List.mem_cons]
      · have hn1 : (arr.set i (val i))[j]? = none :=
          List.getElem?_eq_none (by rw [List.length_set]; omega)
        have hn2 : arr[j]? = none := List.getElem?_eq_none (by omega)
        simp [h2, List.length_set, hn1, hn2]

theorem foldl_set_range (val : Nat → JNum) (l : Nat) (arr : List JNum)
    (h : arr.length = l) :
    (List.range l).foldl (fun a i => a.set i (val i)) arr = (List.range l).map val := by
  apply List.ext_getElem?
  intro j
  rw [foldl_set_getElem]
  by_cases hj : j < l
  · simp [List.mem_range, hj, h, List.getElem?_map, List.getElem?_range hj]
  · have h1 : arr[j]? = none := List.getElem?_eq_none (by omega)
    have h2 : ((List.range l).map val)[j]? = none :=
      List.getElem?_eq_none (by simp; omega)
    simp [List.mem_range, hj, h1, h2]

theorem fillLoop_eq (σ : Store) (rx : Nat) (func : JNum → JNum) (hrx : rx < σ.length) :
    ∀ (js : List Nat) (arr : List JNum),
      js.foldl
        (fun σ' i => writeIdx σ' σ.length i (func ((readArr σ' rx).getD i JNum.nan)))
        (σ ++ [arr]) =
      σ ++ [js.foldl (fun a i => a.set i (func ((readArr σ rx).getD i JNum.nan))) arr] := by
  intro js
  induction js with
  | nil => intro arr; rfl
  | cons i rest ih =>
      intro arr
      rw [List.foldl_cons, List.foldl_cons, readArr_append_left _ _ _ hrx,
        writeIdx_append, ih]

theorem fillLoop_ext (σ : Store) (rx : Nat) (func : JNum → JNum) :
    ∀ (js : List Nat) (arr : List JNum),
      ∃ b, js.foldl
          (fun σ' i => writeIdx σ' σ.length i (func ((readArr σ' rx).getD i JNum.nan)))
          (σ ++ [arr]) = σ ++ [b] := by
  intro js
  induction js with
  | nil => intro arr; exact ⟨arr, rfl⟩
  | cons i rest ih =>
      intro arr
      rw [List.foldl_cons, writeIdx_append]
      exact ih _

theorem stepStR_ext (σ : Store) (rx ry rpar : Nat) (damping gd : JNum) (f : ModelFn) :
    ∃ u, (stepStR σ rx ry rpar damping gd f).1 = σ ++ u := by
  simp only [stepStR, alloc]
  obtain ⟨b, hb⟩ := fillLoop_ext σ rx
    (f (readArr (σ ++ [List.replicate (readArr σ rx).length JNum.nan]) rpar))
    (List.range (readArr σ rx).length)
    (List.replicate (readArr σ rx).length JNum.nan)
  rw [hb]
  obtain ⟨u2, hu2⟩ := gradFnSt_ext (σ ++ [b]) rx σ.length rpar gd f
  rw [hu2, List.append_assoc, List.append_assoc]
  exact ⟨_, rfl⟩

theorem stepStR_frame (σ : Store) (rx ry rpar : Nat) (damping gd : JNum) (f : ModelFn)
    (r : Nat) (h : r < σ.length) :
    readArr (stepStR σ rx ry rpar damping gd f).1 r = readArr σ r := by
  obtain ⟨u, hu⟩ := stepStR_ext σ rx ry rpar damping gd f
  rw [hu, readArr_append_left _ _ _ h]

theorem stepStR_agree (σ : Store) (rx ry rpar : Nat) (damping gd : JNum) (f : ModelFn)
    (hrx : rx < σ.length) (hry : ry < σ.length) (hrp : rpar < σ.length) :
    readArr (stepStR σ rx ry rpar damping gd f).1 (stepStR σ rx ry rpar damping gd f).2 =
      step ⟨readArr σ rx, readArr σ ry⟩ (readArr σ rpar) damping gd f := by
  simp only [stepStR, alloc]
  rw [readArr_append_left σ [List.replicate (readArr σ rx).length JNum.nan] rpar hrp]
  rw [fillLoop_eq σ rx (f (readArr σ rpar)) hrx]
  rw [foldl_set_range (fun i => f (readArr σ rpar) ((readArr σ rx).getD i JNum.nan))
    (readArr σ rx).length (List.replicate (readArr σ rx).length JNum.nan) (by simp)]
  set E := (List.range (readArr σ rx).length).map
    (fun i => f (readArr σ rpar) ((readArr σ rx).getD i JNum.nan)) with hE
  rw [readArr_append_self]
  have hx1 : rx < (σ ++ [E]).length := by rw [List.length_append]; omega
  have hy1 : ry < (σ ++ [E]).length := by rw [List.length_append]; omega
  have hp1 : rpar < (σ ++ [E]).length := by rw [List.length_append]; omega
  have hl1 : σ.length < (σ ++ [E]).length := by simp
  rw [gradFnSt_agree (σ ++ [E]) rx σ.length rpar gd f (readArr σ ry) hx1 hl1 hp1]
  rw [gradFnSt_frame (σ ++ [E]) rx σ.length rpar gd f rx hx1]
  rw [gradFnSt_frame (σ ++ [E]) rx σ.length rpar gd f ry hy1]
  rw [gradFnSt_frame (σ ++ [E]) rx σ.length rpar gd f rpar hp1]
  rw [gradFnSt_frame (σ ++ [E]) rx σ.length rpar gd f σ.length hl1]
  rw [readArr_append_self σ E]
  rw [readArr_append_left σ [E] rx hrx, readArr_append_left σ [E] ry hry,
    readArr_append_left σ [E] rpar hrp]
  rfl

theorem p1BodySt_ext (σ : Store) (rx ry : Nat) (f : ModelFn) (gd v err : JNum)
    (st : P1StSt) : ∃ u, (p1BodySt σ rx ry f gd v err st).1 = σ ++ u := by
  obtain ⟨u1, h1⟩ := stepStR_ext σ rx ry st.parRef st.damp gd f
  obtain ⟨u2, h2⟩ := stepStR_ext (stepStR σ rx ry st.parRef st.damp gd f).1 rx ry
    st.parRef (jdiv st.damp v) gd f
  rw [p1BodySt]
  rw [errorSt_eq]
  rw [errorSt_eq]
  refine ⟨u1 ++ u2, ?_⟩
  show (stepStR (stepStR σ rx ry st.parRef st.damp gd f).1 rx ry st.parRef
    (jdiv st.damp v) gd f).1 = σ ++ (u1 ++ u2)
  rw [h2, h1, List.append_assoc]

theorem phase1LoopSt_zero (rx ry : Nat) (f : ModelFn) (gd v err : JNum)
    (maxIterations : Nat) (σ : Store) (st : P1StSt) :
    phase1LoopSt rx ry f gd v err maxIterations 0 σ st = (σ, none) := rfl

theorem phase1LoopSt_succ (rx ry : Nat) (f : ModelFn) (gd v err : JNum)
    (maxIterations n : Nat) (σ : Store) (st : P1StSt) :
    phase1LoopSt rx ry f gd v err maxIterations (n + 1) σ st =
      (if (p1BodySt σ rx ry f gd v err st).2.2 then
        ((p1BodySt σ rx ry f gd v err st).1,
          some (p1BodySt σ rx ry f gd v err st).2.1)
      else if jlt err (p1BodySt σ rx ry f gd v err st).2.1.errD ||
          jlt err (p1BodySt σ rx ry f gd v err st).2.1.errV ||
          decide ((p1BodySt σ rx ry f gd v err st).2.1.count < maxIterations) then
        phase1LoopSt rx ry f gd v err maxIterations n
          (p1BodySt σ rx ry f gd v err st).1 (p1BodySt σ rx ry f gd v err st).2.1
      else
        ((p1BodySt σ rx ry f gd v err st).1,
          some (p1BodySt σ rx ry f gd v err st).2.1)) := rfl

theorem phase1LoopSt_ext (rx ry : Nat) (f : ModelFn) (gd v err : JNum)
    (maxIterations : Nat) :
    ∀ (fuel : Nat) (σ : Store) (st : P1StSt),
      ∃ u, (phase1LoopSt rx ry f gd v err maxIterations fuel σ st).1 = σ ++ u := by
  intro fuel
  induction fuel with
  | zero => intro σ st; exact ⟨[], by rw [phase1LoopSt_zero, List.append_nil]⟩
  | succ n ih =>
      intro σ st
      obtain ⟨u, hu⟩ := p1BodySt_ext σ rx ry f gd v err st
      rw [phase1LoopSt_succ]
      rcases hB : p1BodySt σ rx ry f gd v err st with ⟨σ₁, st₁, b⟩
      rw [hB] at hu
      dsimp only
      cases b with
      | true => exact ⟨u, hu⟩
      | false =>
          cases hc : jlt err st₁.errD || jlt err st₁.errV ||
              decide (st₁.count < maxIterations) with
          | true =>
              obtain ⟨u2, hu2⟩ := ih σ₁ st₁
              have hfin : (phase1LoopSt rx ry f gd v err maxIterations n σ₁ st₁).1 =
                  σ ++ (u ++ u2) := by
                rw [hu2, show σ₁ = σ ++ u from hu, List.append_assoc]
              exact ⟨_, hfin⟩
          | false => exact ⟨u, hu⟩

theorem phase2GoSt_zero (rx ry : Nat) (f : ModelFn) (gd damp tol : JNum)
    (maxIterations : Nat) (σ : Store) (st : P2StSt) :
    phase2GoSt rx ry f gd damp tol maxIterations 0 σ st = (σ, st) := rfl

theorem phase2GoSt_succ (rx ry : Nat) (f : ModelFn) (gd damp tol : JNum)
    (maxIterations n : Nat) (σ : Store) (st : P2StSt) :
    phase2GoSt rx ry f gd damp tol maxIterations (n + 1) σ st =
      (if decide (st.i < maxIterations) && !st.converged then
        (if isNaN (errorSt (stepStR σ rx ry st.paramsRef damp gd f).1 rx ry
            (stepStR σ rx ry st.paramsRef damp gd f).2 f).2 then
          ((errorSt (stepStR σ rx ry st.paramsRef damp gd f).1 rx ry
              (stepStR σ rx ry st.paramsRef damp gd f).2 f).1,
            { st with
                paramsRef := (stepStR σ rx ry st.paramsRef damp gd f).2,
                err := (errorSt (stepStR σ rx ry st.paramsRef damp gd f).1 rx ry
                  (stepStR σ rx ry st.paramsRef damp gd f).2 f).2 })
        else
          phase2GoSt rx ry f gd damp tol maxIterations n
            (errorSt (stepStR σ rx ry st.paramsRef damp gd f).1 rx ry
              (stepStR σ rx ry st.paramsRef damp gd f).2 f).1
            { paramsRef := (stepStR σ rx ry st.paramsRef damp gd f).2,
              err := (errorSt (stepStR σ rx ry st.paramsRef damp gd f).1 rx ry
                (stepStR σ rx ry st.paramsRef damp gd f).2 f).2,
              converged := jle (errorSt (stepStR σ rx ry st.paramsRef damp gd f).1
                rx ry (stepStR σ rx ry st.paramsRef damp gd f).2 f).2 tol,
              lastRef := (stepStR σ rx ry st.paramsRef damp gd f).2,
              i := st.i + 1 })
      else (σ, st)) := rfl

theorem phase2GoSt_ext (rx ry : Nat) (f : ModelFn) (gd damp tol : JNum)
    (maxIterations : Nat) :
    ∀ (fuel : Nat) (σ : Store) (st : P2StSt),
      ∃ u, (phase2GoSt rx ry f gd damp tol maxIterations fuel σ st).1 = σ ++ u := by
  intro fuel
  induction fuel with
  | zero => intro σ st; exact ⟨[], by rw [phase2GoSt_zero, List.append_nil]⟩
  | succ n ih =>
      intro σ st
      rw [phase2GoSt_succ]
      cases hg : decide (st.i < maxIterations) && !st.converged with
      | false =>
          refine ⟨[], ?_⟩
          show (σ, st).1 = σ ++ []
          rw [List.append_nil]
      | true =>
          obtain ⟨u1, h1⟩ := stepStR_ext σ rx ry st.paramsRef damp gd f
          have hE : (errorSt (stepStR σ rx ry st.paramsRef damp gd f).1 rx ry
              (stepStR σ rx ry st.paramsRef damp gd f).2 f).1 =
              (stepStR σ rx ry st.paramsRef damp gd f).1 := by
            rw [errorSt_eq]
          cases hn : isNaN (errorSt (stepStR σ rx ry st.paramsRef damp gd f).1 rx ry
              (stepStR σ rx ry st.paramsRef damp gd f).2 f).2 with
          | true => exact ⟨u1, hE.trans h1⟩
          | false =>
              obtain ⟨u2, h2⟩ := ih
                (errorSt (stepStR σ rx ry st.paramsRef damp gd f).1 rx ry
                  (stepStR σ rx ry st.paramsRef damp gd f).2 f).1
                { paramsRef := (stepStR σ rx ry st.paramsRef damp gd f).2,
                  err := (errorSt (stepStR σ rx ry st.paramsRef damp gd f).1 rx ry
                    (stepStR σ rx ry st.paramsRef damp gd f).2 f).2,
                  converged := jle (errorSt (stepStR σ rx ry st.paramsRef damp gd f).1
                    rx ry (stepStR σ rx ry st.paramsRef damp gd f).2 f).2 tol,
                  lastRef := (stepStR σ rx ry st.paramsRef damp gd f).2,
                  i := st.i + 1 }
              have hfin := h2.trans (show (errorSt (stepStR σ rx ry st.paramsRef damp
                  gd f).1 rx ry (stepStR σ rx ry st.paramsRef damp gd f).2 f).1 ++ u2 =
                  σ ++ (u1 ++ u2) by rw [hE, h1, List.append_assoc])
              exact ⟨_, hfin⟩

theorem lmaFinishSt_ext (out : Store × P2StSt) (rx ry : Nat) (f : ModelFn) :
    ∃ u, (lmaFinishSt out rx ry f).1 = out.1 ++ u := by
  rw [lmaFinishSt]
  by_cases hn : isNaN out.2.err = true
  · rw [if_pos hn, errorSt_eq]
    exact ⟨[], by rw [List.append_nil]⟩
  · rw [if_neg hn]
    exact ⟨[], by rw [List.append_nil]⟩

set_option maxHeartbeats 1600000 in
theorem lmaRunSt_ext (fuel : Nat) (σ : Store) (rx ry rInit : Nat) (f : ModelFn)
    (damping gd errTol v : JNum) (maxIterations : Nat) :
    ∃ u, (lmaRunSt fuel σ rx ry rInit f damping gd errTol v maxIterations).1 =
      σ ++ u := by
  rw [lmaRunSt]
  have hfst : (errorSt σ rx ry rInit f).1 = σ := by rw [errorSt_eq]
  obtain ⟨u1, h1⟩ := phase1LoopSt_ext rx ry f gd v (errorSt σ rx ry rInit f).2
    maxIterations fuel (errorSt σ rx ry rInit f).1
    { parRef := rInit, damp := damping, count := 0,
      errD := JNum.nan, errV := JNum.nan }
  cases hO : (phase1LoopSt rx ry f gd v (errorSt σ rx ry rInit f).2
      maxIterations fuel (errorSt σ rx ry rInit f).1
      { parRef := rInit, damp := damping, count := 0,
        errD := JNum.nan, errV := JNum.nan }).2 with
  | none => exact ⟨u1, h1.trans (by rw [hfst])⟩
  | some st1 =>
      obtain ⟨u2, h2⟩ := phase2GoSt_ext rx ry f gd st1.damp errTol maxIterations
        maxIterations
        (phase1LoopSt rx ry f gd v (errorSt σ rx ry rInit f).2 maxIterations fuel
          (errorSt σ rx ry rInit f).1
          { parRef := rInit, damp := damping, count := 0,
            errD := JNum.nan, errV := JNum.nan }).1
        { paramsRef := rInit, err := (errorSt σ rx ry rInit f).2,
          converged := jle (errorSt σ rx ry rInit f).2 errTol,
          lastRef := rInit, i := 0 }
      obtain ⟨u3, h3⟩ := lmaFinishSt_ext
        (phase2GoSt rx ry f gd st1.damp errTol maxIterations maxIterations
          (phase1LoopSt rx ry f gd v (errorSt σ rx ry rInit f).2 maxIterations fuel
            (errorSt σ rx ry rInit f).1
            { parRef := rInit, damp := damping, count := 0,
              errD := JNum.nan, errV := JNum.nan }).1
          { paramsRef := rInit, err := (errorSt σ rx ry rInit f).2,
            converged := jle (errorSt σ rx ry rInit f).2 errTol,
            lastRef := rInit, i := 0 })
        rx ry f
      have hfin : (lmaFinishSt
          (phase2GoSt rx ry f gd st1.damp errTol maxIterations maxIterations
            (phase1LoopSt rx ry f gd v (errorSt σ rx ry rInit f).2 maxIterations fuel
              (errorSt σ rx ry rInit f).1
              { parRef := rInit, damp := damping, count := 0,
                errD := JNum.nan, errV := JNum.nan }).1
            { paramsRef := rInit, err := (errorSt σ rx ry rInit f).2,
              converged := jle (errorSt σ rx ry rInit f).2 errTol,
              lastRef := rInit, i := 0 })
          rx ry f).1 = σ ++ (u1 ++ (u2 ++ u3)) := by
        rw [h3, h2, h1, hfst, List.append_assoc, List.append_assoc]
      exact ⟨_, hfin⟩

theorem lmaRunSt_frame (fuel : Nat) (σ : Store) (rx ry rInit : Nat) (f : ModelFn)
    (damping gd errTol v : JNum) (maxIterations : Nat) (r : Nat) (h : r < σ.length) :
    readArr (lmaRunSt fuel σ rx ry rInit f damping gd errTol v maxIterations).1 r =
      readArr σ r := by
  obtain ⟨u, hu⟩ := lmaRunSt_ext fuel σ rx ry rInit f damping gd errTol v maxIterations
  rw [hu, readArr_append_left _ _ _ h]

/-- C10: no operation mutates its inputs.  In the store model (JS arrays
as store references, writes through the store): `error` leaves the store
untouched and computes the sum of absolute residuals of the referenced
arrays; `gradientFunction` leaves every pre-existing array unchanged
(it perturbs only the fresh copy made by `params.concat()`) while
returning the matrix of the pure `gradientFunction`; `step` leaves every
pre-existing array unchanged and its freshly allocated result equals the
pure `step`; and a whole `lma` run leaves every pre-existing array — in
particular `data.x`, `data.y` and `initialValues` — unchanged. -/
theorem c10_no_mutation :
    (∀ (σ : Store) (rx ry rp : Nat) (f : ModelFn),
      (errorSt σ rx ry rp f).1 = σ ∧
      (errorSt σ rx ry rp f).2 = error ⟨readArr σ rx, readArr σ ry⟩ (readArr σ rp) f) ∧
    (∀ (σ : Store) (rx re rp : Nat) (gd : JNum) (f : ModelFn) (r : Nat),
      r < σ.length → readArr (gradFnSt σ rx re rp gd f).1 r = readArr σ r) ∧
    (∀ (σ : Store) (rx re rp : Nat) (gd : JNum) (f : ModelFn) (ys : List JNum),
      rx < σ.length → re < σ.length → rp < σ.length →
      (gradFnSt σ rx re rp gd f).2 =
        gradientFunction ⟨readArr σ rx, ys⟩ (readArr σ re) (readArr σ rp) gd f) ∧
    (∀ (σ : Store) (rx ry rpar : Nat) (damping gd : JNum) (f : ModelFn) (r : Nat),
      r < σ.length →
      readArr (stepStR σ rx ry rpar damping gd f).1 r = readArr σ r) ∧
    (∀ (σ : Store) (rx ry rpar : Nat) (damping gd : JNum) (f : ModelFn),
      rx < σ.length → ry < σ.length → rpar < σ.length →
      readArr (stepStR σ rx ry rpar damping gd f).1
          (stepStR σ rx ry rpar damping gd f).2 =
        step ⟨readArr σ rx, readArr σ ry⟩ (readArr σ rpar) damping gd f) ∧
    (∀ (fuel : Nat) (σ : Store) (rx ry rInit : Nat) (f : ModelFn)
        (damping gd errTol v : JNum) (maxIterations : Nat) (r : Nat),
      r < σ.length →
      readArr (lmaRunSt fuel σ rx ry rInit f damping gd errTol v maxIterations).1 r =
        readArr σ r) :=
  ⟨fun σ rx ry rp f => ⟨by rw [errorSt_eq], by rw [errorSt_eq]⟩,
   fun σ rx re rp gd f r h => gradFnSt_frame σ rx re rp gd f r h,
   fun σ rx re rp gd f ys h1 h2 h3 => gradFnSt_agree σ rx re rp gd f ys h1 h2 h3,
   fun σ rx ry rpar damping gd f r h => stepStR_frame σ rx ry rpar damping gd f r h,
   fun σ rx ry rpar damping gd f h1 h2 h3 =>
     stepStR_agree σ rx ry rpar damping gd f h1 h2 h3,
   fun fuel σ rx ry rInit f damping gd errTol v maxIterations r h =>
     lmaRunSt_frame fuel σ rx ry rInit f damping gd errTol v maxIterations r h⟩

/-- Witness for C10 at a concrete store (arrays `x` at 0, `y` at 1,
params at 2). -/
theorem c10_no_mutation_witness :
    (0 < store0.length ∧ 1 < store0.length ∧ 2 < store0.length) ∧
    readArr (gradFnSt store0 0 1 2 (JNum.num 1) exModel).1 2 = readArr store0 2 ∧
    (gradFnSt store0 0 1 2 (JNum.num 1) exModel).2 =
      gradientFunction ⟨readArr store0 0, readArr store0 1⟩ (readArr store0 1)
        (readArr store0 2) (JNum.num 1) exModel ∧
    readArr (stepStR store0 0 1 2 (JNum.num 0) (JNum.num 1) exModel).1 2 =
      readArr store0 2 ∧
    readArr (stepStR store0 0 1 2 (JNum.num 0) (JNum.num 1) exModel).1
        (stepStR store0 0 1 2 (JNum.num 0) (JNum.num 1) exModel).2 =
      step ⟨readArr store0 0, readArr store0 1⟩ (readArr store0 2) (JNum.num 0)
        (JNum.num 1) exModel ∧
    readArr (lmaRunSt 3 store0 0 1 2 exModel (JNum.num 0) (JNum.num 1)
        (JNum.num (1 / 100)) (JNum.num 2) 1).1 2 = readArr store0 2 :=
  ⟨⟨by decide, by decide, by decide⟩,
   c10_no_mutation.2.1 store0 0 1 2 (JNum.num 1) exModel 2 (by decide),
   c10_no_mutation.2.2.1 store0 0 1 2 (JNum.num 1) exModel (readArr store0 1)
     (by decide) (by decide) (by decide),
   c10_no_mutation.2.2.2.1 store0 0 1 2 (JNum.num 0) (JNum.num 1) exModel 2 (by decide),
   c10_no_mutation.2.2.2.2.1 store0 0 1 2 (JNum.num 0) (JNum.num 1) exModel
     (by decide) (by decide) (by decide),
   c10_no_mutation.2.2.2.2.2 3 store0 0 1 2 exModel (JNum.num 0) (JNum.num 1)
     (JNum.num (1 / 100)) (JNum.num 2) 1 2 (by decide)⟩

end LMA
